import Mathlib

/-!
Verification development for the Nissan-HUD session-assembly and timeline layer.

The TypeScript sources are shallowly embedded:
* JavaScript runtime values appearing in raw CSV/JSON rows are modelled by `JVal`
  (missing/undefined, NaN, finite number as a rational, string); JS truthiness and
  the `a || b` defaulting idiom are `truthy` and `jor`.
* `parseFloat` / `parseInt` are modelled on the decimal fragment they are applied to
  in this code base: longest numeric Sign-digits-dot-digits respectively Sign-digits
  head of the string, NaN when no digit is consumed.
* `Date.prototype.toISOString` is modelled for the post-1970 instants the code
  produces, via the standard civil-from-days calendar conversion.
* Each network fetch used by `DataLoader` is an explicit `Fetch` outcome carried by
  an environment record `Env`; `Math.random()` draws and `new Date(string).getTime()`
  (an external library call) are likewise environment-supplied.
* Async sequencing disappears: every loader becomes a pure function of `Env`.
-/

namespace NissanHUD

/-- A JavaScript value as it occurs in the raw rows handled by `dataLoader.ts`:
absent/undefined, the number NaN, a finite number (modelled as a rational), or a string. -/
inductive JVal where
  | missing : JVal
  | nan : JVal
  | num : ℚ → JVal
  | str : String → JVal
deriving DecidableEq, BEq, Repr

/-- JS truthiness of a `JVal`: undefined and NaN are falsy, a number is truthy iff
nonzero, a string is truthy iff nonempty. -/
def truthy : JVal → Bool
  | .missing => false
  | .nan => false
  | .num q => q ≠ 0
  | .str s => s ≠ ""

/-- The JS `a || b` defaulting operator on `JVal`. -/
def jor (a b : JVal) : JVal := if truthy a then a else b

/-- String coercion of a `JVal` in a string position (only strings occur there in
the modelled code paths). -/
def jvalStr : JVal → String
  | .str s => s
  | .num q => toString q
  | .nan => "NaN"
  | .missing => "undefined"

/-- Numeric value of a list of decimal digit characters. -/
def digitsToNat (ds : List Char) : ℕ :=
  ds.foldl (fun a c => 10 * a + (c.toNat - 48)) 0

/-- `parseFloat` on a character list: optional sign, integer digits, optional
dot and fraction digits; NaN when no digit is consumed.  This covers the decimal
fragment of JS `parseFloat` exercised by the data loader.  The value is
`digits(ip ++ fp) / 10 ^ |fp|`; the fraction-free case is split out as a plain
cast so that integer parses stay kernel-computable. -/
def parseFloatChars (cs : List Char) : JVal :=
  let cs1 := cs.dropWhile (fun c => c = ' ')
  let signed : Bool × List Char :=
    match cs1 with
    | '-' :: rest => (true, rest)
    | '+' :: rest => (false, rest)
    | _ => (false, cs1)
  let ip := signed.2.takeWhile Char.isDigit
  let rest := signed.2.dropWhile Char.isDigit
  let fp : List Char :=
    match rest with
    | '.' :: rest2 => rest2.takeWhile Char.isDigit
    | _ => []
  if ip.isEmpty && fp.isEmpty then JVal.nan
  else if fp.isEmpty then
    JVal.num (if signed.1 then -(digitsToNat ip : ℚ) else (digitsToNat ip : ℚ))
  else
    let mag : ℚ := (digitsToNat (ip ++ fp) : ℚ) / ((10 : ℚ) ^ fp.length)
    JVal.num (if signed.1 then -mag else mag)

/-- `parseFloat` on a string. -/
def parseFloat (s : String) : JVal := parseFloatChars s.data

/-- `parseInt` on a character list: optional sign then decimal digits; NaN when no
digit is consumed. -/
def parseIntChars (cs : List Char) : JVal :=
  let cs1 := cs.dropWhile (fun c => c = ' ')
  let signed : Bool × List Char :=
    match cs1 with
    | '-' :: rest => (true, rest)
    | '+' :: rest => (false, rest)
    | _ => (false, cs1)
  let ip := signed.2.takeWhile Char.isDigit
  if ip.isEmpty then JVal.nan
  else JVal.num (if signed.1 then -(digitsToNat ip : ℚ) else (digitsToNat ip : ℚ))

/-- JS `parseFloat` applied to a `JVal` (the argument is stringified first; a finite
number round-trips, undefined and NaN stringify to non-numeric text). -/
def parseFloatJ : JVal → JVal
  | .missing => JVal.nan
  | .nan => JVal.nan
  | .num q => JVal.num q
  | .str s => parseFloat s

/-- JS `parseInt` applied to a `JVal`; on a finite number it truncates toward zero. -/
def parseIntJ : JVal → JVal
  | .missing => JVal.nan
  | .nan => JVal.nan
  | .num q => JVal.num ((q.num / (q.den : ℤ) : ℤ) : ℚ)
  | .str s => parseIntChars s.data

/-- `Math.abs(a - b) <= bound` under JS semantics: false whenever either side is
not a finite number (NaN comparisons are false). -/
def jabsLe (a b : JVal) (bound : ℚ) : Bool :=
  match a, b with
  | .num x, .num y => |x - y| ≤ bound
  | _, _ => false

/-- JS `Array.prototype.slice(a, b)` for the nonnegative indices used here. -/
def jsSlice {α : Type} (l : List α) (a b : ℕ) : List α :=
  (l.drop a).take (b - a)

/-- JS `String.prototype.slice(a, b)` for nonnegative indices. -/
def jsSliceStr (s : String) (a b : ℕ) : String :=
  (((s.data).drop a).take (b - a)).asString

/-- Element of `String.prototype.split` output at an index, with the JS `|| dflt`
fallback applied (undefined or empty string falls back). -/
def splitGetOr (parts : List String) (i : ℕ) (dflt : String) : String :=
  match parts[i]? with
  | some s => if s = "" then dflt else s
  | none => dflt

/-- `String(n).padStart(4, \x270\x27)` for a natural number. -/
def padStart4 (n : ℕ) : String :=
  let s := toString n
  if s.length < 4 then (List.replicate (4 - s.length) '0').asString ++ s else s

/-- Two-digit zero padding. -/
def pad2 (n : ℕ) : String :=
  if n < 10 then "0" ++ toString n else toString n

/-- Three-digit zero padding. -/
def pad3 (n : ℕ) : String :=
  if n < 100 then (if n < 10 then "00" else "0") ++ toString n else toString n

/-- Four-digit zero padding. -/
def pad4 (n : ℕ) : String :=
  if n < 1000 then
    (if n < 10 then "000" else if n < 100 then "00" else "0") ++ toString n
  else toString n

/-- Civil date (year, month, day) from days since 1970-01-01, for nonnegative day
counts (the only ones this code produces); the standard era-based conversion. -/
def civilFromDays (days : ℕ) : ℕ × ℕ × ℕ :=
  let z := days + 719468
  let era := z / 146097
  let doe := z % 146097
  let yoe := (doe - doe / 1460 + doe / 36524 - doe / 146096) / 365
  let y := yoe + era * 400
  let doy := doe - (365 * yoe + yoe / 4 - yoe / 100)
  let mp := (5 * doy + 2) / 153
  let d := doy - (153 * mp + 2) / 5 + 1
  if mp < 10 then (y, mp + 3, d) else (y + 1, mp - 9, d)

/-- Days since 1970-01-01 of a civil date (valid from 1970 on). -/
def daysFromCivil (y m d : ℕ) : ℕ :=
  let yAdj := if m ≤ 2 then y - 1 else y
  let era := yAdj / 400
  let yoe := yAdj - era * 400
  let mAdj := if m > 2 then m - 3 else m + 9
  let doy := (153 * mAdj + 2) / 5 + d - 1
  let doe := yoe * 365 + yoe / 4 - yoe / 100 + doy
  era * 146097 + doe - 719468

/-- `Date.prototype.toISOString` for a nonnegative epoch-millisecond instant. -/
def toISOStringUTC (ms : ℕ) : String :=
  let days := ms / 86400000
  let rem := ms % 86400000
  let hh := rem / 3600000
  let mi := rem % 3600000 / 60000
  let ss := rem % 60000 / 1000
  let msp := rem % 1000
  let ymd := civilFromDays days
  pad4 ymd.1 ++ "-" ++ pad2 ymd.2.1 ++ "-" ++ pad2 ymd.2.2 ++ "T" ++
    pad2 hh ++ ":" ++ pad2 mi ++ ":" ++ pad2 ss ++ "." ++ pad3 msp ++ "Z"

/-- JS `replace(\x27T\x27, \x27 \x27)`: replace the first occurrence of the character. -/
def replaceFirstTBySpace : List Char → List Char
  | [] => []
  | c :: rest => if c = 'T' then ' ' :: rest else c :: replaceFirstTBySpace rest

/-- `toISOString().replace(\x27T\x27, \x27 \x27).slice(0, 19)` as used by the synthetic
GPS generator. -/
def isoDateTime19 (ms : ℕ) : String :=
  jsSliceStr (replaceFirstTBySpace (toISOStringUTC ms).data).asString 0 19

/-- One normalized GPS sample (`GPSData` in `dataLoader.ts`).  Optional JS fields
are `Option JVal` (`none` is the undefined field); `latitude`/`longitude` are raw
`JVal` since the metadata fallback copies them without parsing. -/
structure GPSData where
  timestamp : String
  time : String
  date : String
  latitude : JVal
  longitude : JVal
  altitude : Option JVal
  speed : Option JVal
  heading : Option JVal
  source : String
  session : JVal
  camera : JVal
  anomalyType : JVal
deriving DecidableEq, BEq, Repr

/-- A GPS point attached to a timeline entry (`GPSPoint` in `dataLoader.ts`). -/
structure GPSPoint where
  latitude : JVal
  longitude : JVal
  timestamp : JVal
  session : JVal
  camera : JVal
  anomalyType : JVal
  recordIndex : JVal
  source : String
deriving DecidableEq, BEq, Repr

/-- One detection record (`DetectionData` in `dataLoader.ts`). -/
structure DetectionData where
  frameNum : JVal
  streamId : ℕ
  className : String
  confidence : JVal
  left : JVal
  top : JVal
  width : JVal
  height : JVal
  timestamp : JVal
  imagePath : JVal
  gpsData : Option GPSPoint
deriving DecidableEq, BEq, Repr

/-- One timeline frame (`ImageData` in `dataLoader.ts`).  The nested
`camera -> anomalyType -> [names]` objects are flattened to lists of
(camera, anomalyType, entry) triples in insertion order. -/
structure ImageData where
  timestamp : String
  date : String
  time : String
  latitude : JVal
  longitude : JVal
  detections : List DetectionData
  images : List (String × String × String)
  fullPaths : List (String × String × String)
  gpsPoints : List GPSPoint
deriving DecidableEq, BEq, Repr

/-- One telemetry record (`SystemMetrics` in `dataLoader.ts`). -/
structure SystemMetrics where
  timestamp : String
  time : String
  date : String
  cpu_usage_percent : JVal
  gpu_usage_percent : JVal
  memory_usage_percent : JVal
  memory_used_mb : JVal
  memory_total_mb : JVal
  swap_usage_percent : JVal
  swap_used_mb : JVal
  swap_total_mb : JVal
  disk_usage_percent : JVal
  disk_used_gb : JVal
  disk_total_gb : JVal
  cpu_temp_celsius : JVal
  gpu_temp_celsius : JVal
  thermal_temp_celsius : JVal
  fan_speed_percent : JVal
  power_total_watts : JVal
  power_cpu_watts : JVal
  power_gpu_watts : JVal
  uptime_seconds : JVal
deriving DecidableEq, BEq, Repr

/-- A raw GPS row as delivered by the `/api/gps-data*` endpoints. -/
structure RawGPSRow where
  timestamp : JVal := .missing
  date : JVal := .missing
  time : JVal := .missing
  latitude : JVal := .missing
  lat : JVal := .missing
  longitude : JVal := .missing
  lng : JVal := .missing
  lon : JVal := .missing
  altitude : JVal := .missing
  speed : JVal := .missing
  heading : JVal := .missing
  source : JVal := .missing
  session : JVal := .missing
  camera : JVal := .missing
  anomalyType : JVal := .missing
deriving DecidableEq, BEq, Repr

/-- A raw detection-metadata row as delivered by the server. -/
structure RawDetRow where
  frameNum : JVal := .missing
  frame_number : JVal := .missing
  confidence : JVal := .missing
  score : JVal := .missing
  left : JVal := .missing
  x : JVal := .missing
  bbox_left : JVal := .missing
  top : JVal := .missing
  y : JVal := .missing
  bbox_top : JVal := .missing
  width : JVal := .missing
  w : JVal := .missing
  bbox_width : JVal := .missing
  height : JVal := .missing
  h : JVal := .missing
  bbox_height : JVal := .missing
  timestamp : JVal := .missing
  time : JVal := .missing
  imagePath : JVal := .missing
  image_path : JVal := .missing
  filename : JVal := .missing
deriving DecidableEq, BEq, Repr

/-- A raw per-triple GPS row inside a `metadata-with-images` payload. -/
structure RawMetaGPSRow where
  latitude : JVal := .missing
  longitude : JVal := .missing
  timestamp : JVal := .missing
  session : JVal := .missing
  camera : JVal := .missing
  anomalyType : JVal := .missing
  recordIndex : JVal := .missing
deriving DecidableEq, BEq, Repr

/-- A raw telemetry row as delivered by `/api/system-metrics`. -/
structure RawMetricsRow where
  timestamp : JVal := .missing
  date : JVal := .missing
  time : JVal := .missing
  cpu_usage_percent : JVal := .missing
  gpu_usage_percent : JVal := .missing
  memory_usage_percent : JVal := .missing
  memory_used_mb : JVal := .missing
  memory_total_mb : JVal := .missing
  swap_usage_percent : JVal := .missing
  swap_used_mb : JVal := .missing
  swap_total_mb : JVal := .missing
  disk_usage_percent : JVal := .missing
  disk_used_gb : JVal := .missing
  disk_total_gb : JVal := .missing
  cpu_temp_celsius : JVal := .missing
  gpu_temp_celsius : JVal := .missing
  thermal_temp_celsius : JVal := .missing
  fan_speed_percent : JVal := .missing
  power_total_watts : JVal := .missing
  power_cpu_watts : JVal := .missing
  power_gpu_watts : JVal := .missing
  uptime_seconds : JVal := .missing
deriving DecidableEq, BEq, Repr

/-- The raw `gpsStats` object optionally present on a manifest entry. -/
structure RawGpsStats where
  latRange : JVal := .missing
  lngRange : JVal := .missing
  firstTimestamp : JVal := .missing
  lastTimestamp : JVal := .missing
deriving DecidableEq, BEq, Repr

/-- One entry of the `/api/metadata/scan` manifest.  The numeric counts are read
through `if (file.imageCount)` guards, so absent is identified with `0`. -/
structure MetaFile where
  session : String
  camera : String
  anomalyType : String
  imageCount : ℕ := 0
  gpsCount : ℕ := 0
  gpsStats : Option RawGpsStats := none
deriving DecidableEq, BEq, Repr

/-- One image entry of a `metadata-with-images` payload. -/
structure ImgEntry where
  name : String
  url : String
deriving DecidableEq, BEq, Repr

/-- Parsed body of a `metadata-with-images` response. -/
structure MetaImagesPayload where
  success : Bool
  images : List ImgEntry
  metadata : List RawDetRow
  gps : List RawMetaGPSRow
deriving DecidableEq, BEq, Repr

/-- Per-anomaly dashboard summary entry (counts already coerced, `0` for absent,
matching the `|| 0` reads in the source). -/
structure AnomSummary where
  recordCount : ℕ := 0
  imageCount : ℕ := 0
  gpsCount : ℕ := 0
deriving DecidableEq, BEq, Repr

/-- Parsed `/api/dashboard` body: `summary?.anomalies` as an ordered association
list, `none` when the optional chain is undefined. -/
structure DashboardData where
  summaryAnomalies : Option (List (String × List AnomSummary)) := none
deriving DecidableEq, BEq, Repr

/-- Outcome of one `fetch`: the request threw, the response was not ok, the body
was ok but invalid (missing `success`/`data`), or a parsed payload. -/
inductive Fetch (α : Type) where
  | netFail : Fetch α
  | httpFail : Fetch α
  | bad : Fetch α
  | ok : α → Fetch α
deriving DecidableEq, BEq, Repr

/-- Whether a fetch delivered a usable payload. -/
def Fetch.isOk {α : Type} : Fetch α → Bool
  | .ok _ => true
  | _ => false

/-- The `Math.random()` draws consumed per synthetic GPS point. -/
structure SynthDraw where
  rLat : ℚ := 0
  rLng : ℚ := 0
  rAlt : ℚ := 0
  rSpd : ℚ := 0
  rHead : ℚ := 0
deriving DecidableEq, BEq, Repr

/-- The `Math.random()` draws consumed while normalizing one detection row. -/
structure DetDraw where
  rConf : ℚ := 0
  rLeft : ℚ := 0
  rTop : ℚ := 0
  rWidth : ℚ := 0
  rHeight : ℚ := 0
deriving DecidableEq, BEq, Repr

/-- The ambient world of one `DataLoader.loadSession()` run: the outcome of every
fetch the loader performs, the `Math.random()` streams, and the external
`new Date(string).getTime()` parser (NaN-producing, hence `JVal`-valued). -/
structure Env where
  serverUrl : String := "http://localhost:8081"
  dashboard : Fetch DashboardData := .ok {}
  combined : Fetch (List RawGPSRow) := .ok []
  gpsLog : Fetch (List RawGPSRow) := .httpFail
  gpsMeta : Fetch (List RawGPSRow) := .httpFail
  sysMetrics : Fetch (List RawMetricsRow) := .ok []
  scan : Fetch (List MetaFile) := .ok []
  metaWithImages : MetaFile → Fetch MetaImagesPayload := fun _ => .httpFail
  synthRand : ℕ → SynthDraw := fun _ => {}
  detRand : MetaFile → ℕ → ℕ → DetDraw := fun _ _ _ => {}
  getTime : String → JVal := fun _ => .nan

/-- Row mapping of `loadCombinedGPSData` (dataLoader.ts lines 198-211). -/
def mapCombinedGPSRow (point : RawGPSRow) : GPSData :=
  { timestamp :=
      if truthy point.timestamp then jvalStr point.timestamp
      else jvalStr (jor point.date (.str "2025-01-01")) ++ " " ++
        jvalStr (jor point.time (.str "00:00:00"))
    time :=
      if truthy point.timestamp then
        splitGetOr ((jvalStr point.timestamp).splitOn " ") 1 "00:00:00"
      else "00:00:00"
    date :=
      if truthy point.timestamp then
        splitGetOr ((jvalStr point.timestamp).splitOn " ") 0 "2025-01-01"
      else "2025-01-01"
    latitude := parseFloatJ (jor point.latitude (.num 0))
    longitude := parseFloatJ (jor point.longitude (.num 0))
    altitude := if truthy point.altitude then some (parseFloatJ point.altitude) else none
    speed := if truthy point.speed then some (parseFloatJ point.speed) else none
    heading := if truthy point.heading then some (parseFloatJ point.heading) else none
    source := jvalStr (jor point.source (.str "unknown"))
    session := point.session
    camera := point.camera
    anomalyType := point.anomalyType }

/-- Row mapping of the GPS-log branch of `loadFallbackGPSData` (lines 225-235). -/
def mapLogGPSRow (row : RawGPSRow) : GPSData :=
  { timestamp :=
      if truthy row.timestamp then jvalStr row.timestamp
      else jvalStr (jor row.date (.str "2025-01-01")) ++ " " ++
        jvalStr (jor row.time (.str "00:00:00"))
    time := jvalStr (jor row.time (.str "00:00:00"))
    date := jvalStr (jor row.date (.str "2025-01-01"))
    latitude := parseFloatJ (jor row.latitude (jor row.lat (.num 0)))
    longitude := parseFloatJ (jor row.longitude (jor row.lng (jor row.lon (.num 0))))
    altitude := if truthy row.altitude then some (parseFloatJ row.altitude) else none
    speed := if truthy row.speed then some (parseFloatJ row.speed) else none
    heading := if truthy row.heading then some (parseFloatJ row.heading) else none
    source := "gps_log.csv"
    session := .missing
    camera := .missing
    anomalyType := .missing }

/-- Row mapping of the metadata branch of `loadFallbackGPSData` (lines 248-258):
latitude/longitude are copied raw, without `parseFloat`. -/
def mapMetadataGPSRow (point : RawGPSRow) : GPSData :=
  { timestamp :=
      if truthy point.timestamp then jvalStr point.timestamp
      else jvalStr (jor point.date (.str "2025-01-01")) ++ " " ++
        jvalStr (jor point.time (.str "00:00:00"))
    time :=
      if truthy point.timestamp then
        splitGetOr ((jvalStr point.timestamp).splitOn " ") 1 "00:00:00"
      else "00:00:00"
    date :=
      if truthy point.timestamp then
        splitGetOr ((jvalStr point.timestamp).splitOn " ") 0 "2025-01-01"
      else "2025-01-01"
    latitude := point.latitude
    longitude := point.longitude
    altitude := none
    speed := none
    heading := none
    source := "metadata.csv"
    session := point.session
    camera := point.camera
    anomalyType := point.anomalyType }

/-- Epoch milliseconds of `new Date(\x272025-01-01T10:00:00Z\x27)`, the synthetic base. -/
def syntheticBaseMs : ℕ := daysFromCivil 2025 1 1 * 86400000 + 10 * 3600000

/-- `generateSyntheticGPSData` (lines 270-293): exactly 50 points, 30 s apart,
jittered around the Yokosuka seed coordinates by the supplied random draws. -/
def generateSyntheticGPSData (r : ℕ → SynthDraw) : List GPSData :=
  (List.range 50).map (fun i =>
    let ms := syntheticBaseMs + i * 30000
    let d := r i
    { timestamp := isoDateTime19 ms
      date := jsSliceStr (toISOStringUTC ms) 0 10
      time := jsSliceStr (toISOStringUTC ms) 11 19
      latitude := .num ((352838 / 10000 : ℚ) + (d.rLat - 1/2) * (1/100))
      longitude := .num ((1396544 / 10000 : ℚ) + (d.rLng - 1/2) * (1/100))
      altitude := some (.num (10 + d.rAlt * 20))
      speed := some (.num (d.rSpd * 60))
      heading := some (.num (d.rHead * 360))
      source := "synthetic"
      session := .missing
      camera := .missing
      anomalyType := .missing })

/-- `loadFallbackGPSData` (lines 218-268): GPS log endpoint, then GPS-from-metadata
endpoint, then the synthetic generator.  Any non-ok outcome falls through. -/
def loadFallbackGPSData (env : Env) : List GPSData :=
  match env.gpsLog with
  | .ok rows => rows.map mapLogGPSRow
  | _ =>
    match env.gpsMeta with
    | .ok rows => rows.map mapMetadataGPSRow
    | _ => generateSyntheticGPSData env.synthRand

/-- `loadCombinedGPSData` (lines 181-216): the combined endpoint when usable,
otherwise the fallback chain. -/
def loadCombinedGPSData (env : Env) : List GPSData :=
  match env.combined with
  | .ok rows => rows.map mapCombinedGPSRow
  | _ => loadFallbackGPSData env

/-- Row mapping of `loadSystemMetrics` (lines 309-332). -/
def mapSystemMetricsRow (row : RawMetricsRow) : SystemMetrics :=
  { timestamp :=
      if truthy row.timestamp then jvalStr row.timestamp
      else jvalStr (jor row.date (.str "2025-01-01")) ++ " " ++
        jvalStr (jor row.time (.str "00:00:00"))
    time := jvalStr (jor row.time (.str "00:00:00"))
    date := jvalStr (jor row.date (.str "2025-01-01"))
    cpu_usage_percent := parseFloatJ (jor row.cpu_usage_percent (.num 0))
    gpu_usage_percent := parseFloatJ (jor row.gpu_usage_percent (.num 0))
    memory_usage_percent := parseFloatJ (jor row.memory_usage_percent (.num 0))
    memory_used_mb := parseFloatJ (jor row.memory_used_mb (.num 0))
    memory_total_mb := parseFloatJ (jor row.memory_total_mb (.num 8192))
    swap_usage_percent := parseFloatJ (jor row.swap_usage_percent (.num 0))
    swap_used_mb := parseFloatJ (jor row.swap_used_mb (.num 0))
    swap_total_mb := parseFloatJ (jor row.swap_total_mb (.num 2048))
    disk_usage_percent := parseFloatJ (jor row.disk_usage_percent (.num 0))
    disk_used_gb := parseFloatJ (jor row.disk_used_gb (.num 0))
    disk_total_gb := parseFloatJ (jor row.disk_total_gb (.num 500))
    cpu_temp_celsius := parseFloatJ (jor row.cpu_temp_celsius (.num 45))
    gpu_temp_celsius := parseFloatJ (jor row.gpu_temp_celsius (.num 50))
    thermal_temp_celsius := parseFloatJ (jor row.thermal_temp_celsius (.num 48))
    fan_speed_percent := parseFloatJ (jor row.fan_speed_percent (.num 30))
    power_total_watts := parseFloatJ (jor row.power_total_watts (.num 15))
    power_cpu_watts := parseFloatJ (jor row.power_cpu_watts (.num 8))
    power_gpu_watts := parseFloatJ (jor row.power_gpu_watts (.num 7))
    uptime_seconds := parseFloatJ (jor row.uptime_seconds (.num 3600)) }

/-- `loadSystemMetrics` (lines 295-337): every failure mode yields the empty list. -/
def loadSystemMetrics (env : Env) : List SystemMetrics :=
  match env.sysMetrics with
  | .ok rows => rows.map mapSystemMetricsRow
  | _ => []

/-- `loadMetadataFiles` (lines 339-357): the one loader that rethrows on every
failure mode. -/
def loadMetadataFiles (env : Env) : Except String (List MetaFile) :=
  match env.scan with
  | .ok files => .ok files
  | .netFail => .error "Error scanning metadata files"
  | .httpFail => .error "Metadata scan failed"
  | .bad => .error "Metadata scan response invalid"

/-- Camera UI configuration (`getCameraConfig` result).  The source field `type`
is a Lean keyword and is embedded as `camType`. -/
structure CameraConfig where
  displayName : String
  camType : String
  resolution : String
  color : String
  description : String
deriving DecidableEq, BEq, Repr

/-- `getCameraConfig` (lines 644-702). -/
def getCameraConfig (cameraName sessionName : String) : CameraConfig :=
  let configKey := cameraName ++ "_" ++ sessionName
  if configKey = "4kcam_F2" then
    { displayName := "4K Camera", camType := "High Resolution", resolution := "4096x2160",
      color := "#3B82F6",
      description := "High-resolution 4K road inspection camera with GPS tracking" }
  else if configKey = "cam1_F2" then
    { displayName := "Camera 1 (F2)", camType := "Standard", resolution := "1920x1080",
      color := "#10B981",
      description := "Standard resolution road inspection camera - F2 session with GPS" }
  else if configKey = "cam1_floMobility123_F1" then
    { displayName := "Camera 1 (F1)", camType := "Standard", resolution := "1920x1080",
      color := "#8B5CF6",
      description := "Standard resolution road inspection camera - F1 session with GPS" }
  else if configKey = "argus0_floMobility123_F1" then
    { displayName := "Argus Camera 0", camType := "Multi-sensor", resolution := "1920x1080",
      color := "#F59E0B",
      description := "Multi-sensor inspection camera with GPS tracking" }
  else if configKey = "argus1_floMobility123_F1" then
    { displayName := "Argus Camera 1", camType := "Multi-sensor", resolution := "1920x1080",
      color := "#EF4444",
      description := "Multi-sensor inspection camera with GPS tracking" }
  else
    { displayName := cameraName ++ " (" ++ sessionName ++ ")", camType := "Unknown",
      resolution := "1920x1080", color := "#6B7280",
      description := "Road inspection camera from " ++ sessionName ++
        " session with potential GPS data" }

/-- Per-camera aggregate (`CameraInfo` in `dataLoader.ts`); `type` embedded as
`camType`. -/
structure CameraInfo where
  name : String
  displayName : String
  camType : String
  resolution : String
  color : String
  description : String
  detectionCount : ℕ
  classes : List String
  session : String
  imageCount : ℕ
  gpsCount : ℕ
  hasGPS : Bool
  gpsStats : Option RawGpsStats
deriving DecidableEq, BEq, Repr

/-- Fresh `CameraInfo` for a manifest entry (lines 367-381). -/
def initCameraInfo (file : MetaFile) : CameraInfo :=
  let cfg := getCameraConfig file.camera file.session
  { name := file.camera, displayName := cfg.displayName, camType := cfg.camType,
    resolution := cfg.resolution, color := cfg.color, description := cfg.description,
    session := file.session, detectionCount := 0, classes := [], imageCount := 0,
    gpsCount := 0, hasGPS := false, gpsStats := none }

/-- Mutations applied to the (possibly fresh) map entry for one manifest file
(lines 384-406). -/
def updateCameraWithFile (camera : CameraInfo) (file : MetaFile) : CameraInfo :=
  let camera :=
    if camera.classes.contains file.anomalyType then camera
    else { camera with classes := camera.classes ++ [file.anomalyType] }
  let camera :=
    if file.imageCount ≠ 0 then { camera with imageCount := camera.imageCount + file.imageCount }
    else camera
  let camera :=
    if file.gpsCount ≠ 0 then
      { camera with gpsCount := camera.gpsCount + file.gpsCount, hasGPS := true }
    else camera
  match file.gpsStats with
  | some st => { camera with gpsStats := some st }
  | none => camera

/-- One `forEach` step over the manifest, on an insertion-ordered association list
modelling the `Map`. -/
def addFileToCameraMap (m : List (String × CameraInfo)) (file : MetaFile) :
    List (String × CameraInfo) :=
  let cameraKey := file.camera ++ "_" ++ file.session
  let m1 := if m.any (fun p => p.1 = cameraKey) then m else m ++ [(cameraKey, initCameraInfo file)]
  m1.map (fun p => if p.1 = cameraKey then (p.1, updateCameraWithFile p.2 file) else p)

/-- Per-camera dashboard count update (lines 412-433). -/
def updateCameraFromDash (camera : CameraInfo) (anomalies : List AnomSummary) : CameraInfo :=
  let camera := { camera with
    detectionCount := (anomalies.map AnomSummary.recordCount).sum }
  let totalImageCount := (anomalies.map AnomSummary.imageCount).sum
  let camera :=
    if totalImageCount > camera.imageCount then { camera with imageCount := totalImageCount }
    else camera
  let totalGPSCount := (anomalies.map AnomSummary.gpsCount).sum
  if totalGPSCount > camera.gpsCount then
    { camera with gpsCount := totalGPSCount, hasGPS := totalGPSCount > 0 }
  else camera

/-- `buildEnhancedCameraInfo` (lines 359-439). -/
def buildEnhancedCameraInfo (metadataFiles : List MetaFile) (dashboardData : DashboardData) :
    List CameraInfo :=
  let m := metadataFiles.foldl addFileToCameraMap []
  let m :=
    match dashboardData.summaryAnomalies with
    | none => m
    | some entries =>
      entries.foldl
        (fun (m : List (String × CameraInfo)) (ent : String × List AnomSummary) =>
          m.map (fun (p : String × CameraInfo) =>
            if p.2.name = ent.1 then (p.1, updateCameraFromDash p.2 ent.2) else p))
        m
  m.map Prod.snd

/-- `((x) * 100).toFixed(1)` for the nonnegative ratios this code formats. -/
def toFixed1 (q : ℚ) : String :=
  let n := (⌊q * 10 + 1 / 2⌋).toNat
  toString (n / 10) ++ "." ++ toString (n % 10)

/-- Pointwise `Math.min` on JS numbers (NaN-absorbing). -/
def jMin2 (a b : JVal) : JVal :=
  match a, b with
  | .num x, .num y => .num (min x y)
  | _, _ => .nan

/-- Pointwise `Math.max` on JS numbers (NaN-absorbing). -/
def jMax2 (a b : JVal) : JVal :=
  match a, b with
  | .num x, .num y => .num (max x y)
  | _, _ => .nan

/-- `Math.min(...values)` of a nonempty spread. -/
def jMinList : List JVal → JVal
  | [] => .nan
  | v :: rest => rest.foldl jMin2 v

/-- `Math.max(...values)` of a nonempty spread. -/
def jMaxList : List JVal → JVal
  | [] => .nan
  | v :: rest => rest.foldl jMax2 v

/-- One source bucket of the GPS statistics. -/
structure GPSSourceStat where
  source : String
  count : ℕ
  srcType : String
deriving DecidableEq, BEq, Repr

/-- The derived GPS statistics of a session. -/
structure GPSStats where
  totalPoints : ℕ
  sources : List GPSSourceStat
  coverage : String
  bounds : Option ((JVal × JVal) × (JVal × JVal))
deriving DecidableEq, BEq, Repr

/-- One `forEach` step of the per-source counting in `calculateGPSStats`. -/
def addSourceStat (m : List GPSSourceStat) (point : GPSData) : List GPSSourceStat :=
  let sourceKey := if point.source = "" then "unknown" else point.source
  let typeOf :=
    if sourceKey = "gps_log.csv" then "GPS tracking log"
    else if sourceKey = "metadata.csv" then "Anomaly detection metadata"
    else "Unknown"
  if m.any (fun s => s.source = sourceKey) then
    m.map (fun s => if s.source = sourceKey then { s with count := s.count + 1 } else s)
  else m ++ [{ source := sourceKey, count := 1, srcType := typeOf }]

/-- `calculateGPSStats` (lines 585-626). -/
def calculateGPSStats (gpsData : List GPSData) (cameras : List CameraInfo) : GPSStats :=
  let sources := gpsData.foldl addSourceStat []
  let camerasWithGPS := (cameras.filter (fun c => c.hasGPS)).length
  let coverage :=
    if cameras.length > 0 then
      toFixed1 ((camerasWithGPS : ℚ) / (cameras.length : ℚ) * 100) ++ "%"
    else "0%"
  let bounds :=
    if gpsData.length > 0 then
      let latitudes := (gpsData.map GPSData.latitude).filter (fun v => v ≠ .num 0)
      let longitudes := (gpsData.map GPSData.longitude).filter (fun v => v ≠ .num 0)
      if latitudes.length > 0 ∧ longitudes.length > 0 then
        some ((jMinList latitudes, jMaxList latitudes),
              (jMinList longitudes, jMaxList longitudes))
      else none
    else none
  { totalPoints := gpsData.length, sources := sources, coverage := coverage, bounds := bounds }

/-- Host name of a URL, modelling `new URL(url).hostname` by splitting the scheme,
path and port. -/
def hostnameOf (url : String) : String :=
  let afterScheme :=
    match url.splitOn "://" with
    | _ :: rest :: _ => rest
    | _ => url
  match (afterScheme.splitOn "/").headD afterScheme |>.splitOn ":" with
  | h :: _ => h
  | [] => ""

/-- `extractSessionName` (lines 704-707). -/
def extractSessionName (serverUrl : String) : String :=
  if hostnameOf serverUrl = "localhost" then "Multi-Session GPS-Enhanced Data (Local)"
  else "Remote GPS-Enhanced Session"

/-- `getStreamIdForCamera` (lines 630-642). -/
def getStreamIdForCamera (cameraName session : String) : ℕ :=
  if session = "F2" then
    if cameraName = "4kcam" then 100
    else if cameraName = "cam1" then 50
    else 1
  else if session = "floMobility123_F1" then
    if cameraName = "argus0" then 10
    else if cameraName = "argus1" then 20
    else if cameraName = "cam1" then 30
    else 1
  else 1

/-- Normalization of one sampled detection row inside `createEnhancedTimeline`
(lines 528-561).  `i` is the timeline index, `index` the position inside the
sampled slice, `d` the `Math.random()` draws consumed by the defaulting chain. -/
def mapEnhancedDetectionRow (file : MetaFile) (gpsRows : List RawMetaGPSRow)
    (i index : ℕ) (d : DetDraw) (row : RawDetRow) : DetectionData :=
  let detectionGPS : Option GPSPoint :=
    if gpsRows.length > 0 then
      match gpsRows[(i + index) % gpsRows.length]? with
      | some g => some
          { latitude := g.latitude, longitude := g.longitude, timestamp := g.timestamp,
            session := g.session, camera := g.camera, anomalyType := g.anomalyType,
            recordIndex := g.recordIndex, source := "metadata.csv" }
      | none => none
    else none
  { frameNum := parseIntJ (jor row.frameNum (jor row.frame_number (.num index)))
    streamId := getStreamIdForCamera file.camera file.session
    className := file.anomalyType
    confidence := parseFloatJ (jor row.confidence (jor row.score
      (.num (d.rConf * (3 / 10) + 7 / 10))))
    left := parseFloatJ (jor row.left (jor row.x (jor row.bbox_left
      (.num (d.rLeft * 500)))))
    top := parseFloatJ (jor row.top (jor row.y (jor row.bbox_top
      (.num (d.rTop * 500)))))
    width := parseFloatJ (jor row.width (jor row.w (jor row.bbox_width
      (.num (100 + d.rWidth * 200)))))
    height := parseFloatJ (jor row.height (jor row.h (jor row.bbox_height
      (.num (100 + d.rHeight * 200)))))
    timestamp := jor row.timestamp (jor row.time (.str ""))
    imagePath := jor row.imagePath (jor row.image_path (jor row.filename
      (.str (file.camera ++ "_" ++ file.anomalyType ++ "_" ++ padStart4 index ++ ".jpg"))))
    gpsData := detectionGPS }

/-- The round-robin detection sample of frame `i` for one triple (lines 522-527):
`data.slice(i % max(len,1), i % max(len,1) + min(3, len))`. -/
def enhancedSampleDetections (data : List RawDetRow) (i : ℕ) : List RawDetRow :=
  let start := i % max data.length 1
  jsSlice data start (start + min 3 data.length)

/-- Detections contributed by one manifest triple to frame `i` (lines 484-571,
detection part).  A failed or invalid per-triple fetch contributes nothing. -/
def detectionsForFile (env : Env) (i : ℕ) (file : MetaFile) : List DetectionData :=
  match env.metaWithImages file with
  | .ok payload =>
    if payload.success then
      if payload.metadata.length > 0 then
        (enhancedSampleDetections payload.metadata i).enum.map
          (fun p => mapEnhancedDetectionRow file payload.gps i p.1 (env.detRand file i p.1) p.2)
      else []
    else []
  | _ => []

/-- Image names contributed by one manifest triple to frame `i` (lines 507-519). -/
def imagesForFile (env : Env) (i : ℕ) (file : MetaFile) : List (String × String × String) :=
  match env.metaWithImages file with
  | .ok payload =>
    if payload.success then
      if payload.images.length > 0 then
        (jsSlice payload.images (i % payload.images.length) (i % payload.images.length + 3)).map
          (fun img => (file.camera, file.anomalyType, img.name))
      else []
    else []
  | _ => []

/-- Resolved image URLs contributed by one manifest triple to frame `i`. -/
def fullPathsForFile (env : Env) (i : ℕ) (file : MetaFile) : List (String × String × String) :=
  match env.metaWithImages file with
  | .ok payload =>
    if payload.success then
      if payload.images.length > 0 then
        (jsSlice payload.images (i % payload.images.length) (i % payload.images.length + 3)).map
          (fun img => (file.camera, file.anomalyType, env.serverUrl ++ img.url))
      else []
    else []
  | _ => []

/-- The `gpsPoints` attached to a timeline entry: all GPS samples within one
minute of the anchor (lines 464-481), compared through the environment Date
parser (NaN never matches). -/
def nearbyGPSPoints (env : Env) (gpsData : List GPSData) (gpsPoint : GPSData) :
    List GPSPoint :=
  let nearby := gpsData.filter (fun point =>
    if point.timestamp = "" ∨ gpsPoint.timestamp = "" then false
    else jabsLe (env.getTime point.timestamp) (env.getTime gpsPoint.timestamp) 60000)
  nearby.map (fun point =>
    { latitude := point.latitude, longitude := point.longitude,
      timestamp := .str point.timestamp,
      session := jor point.session (.str "unknown"),
      camera := jor point.camera (.str "unknown"),
      anomalyType := jor point.anomalyType (.str "general"),
      recordIndex := .num (gpsData.indexOf point : ℚ),
      source := if point.source = "gps_log.csv" then "gps_log.csv" else "metadata.csv" })

/-- Placeholder anchor; never read because the timeline loop only visits indices
below the GPS list length. -/
def unusedGPSAnchor : GPSData :=
  { timestamp := "", time := "", date := "", latitude := .num 0, longitude := .num 0,
    altitude := none, speed := none, heading := none, source := "",
    session := .missing, camera := .missing, anomalyType := .missing }

/-- The timeline entry anchored at GPS fix `i` (lines 450-573). -/
def timelineEntryAt (env : Env) (gpsData : List GPSData) (metadataFiles : List MetaFile)
    (i : ℕ) : ImageData :=
  let gpsPoint := gpsData.getD i unusedGPSAnchor
  { timestamp := gpsPoint.timestamp
    date := gpsPoint.date
    time := gpsPoint.time
    latitude := gpsPoint.latitude
    longitude := gpsPoint.longitude
    detections := (metadataFiles.map (fun f => detectionsForFile env i f)).flatten
    images := (metadataFiles.map (fun f => imagesForFile env i f)).flatten
    fullPaths := (metadataFiles.map (fun f => fullPathsForFile env i f)).flatten
    gpsPoints := nearbyGPSPoints env gpsData gpsPoint }

/-- `createEnhancedTimeline` (lines 441-583): one frame per GPS fix, hard-limited
to the first `min(gpsData.length, 100)` fixes. -/
def createEnhancedTimeline (env : Env) (gpsData : List GPSData)
    (metadataFiles : List MetaFile) : List ImageData :=
  let maxTimelinePoints := min gpsData.length 100
  (List.range maxTimelinePoints).map (fun i => timelineEntryAt env gpsData metadataFiles i)

/-- The aggregate session snapshot (`SessionData` in `dataLoader.ts`). -/
structure SessionData where
  sessionName : String
  sessionPath : String
  cameras : List CameraInfo
  timeline : List ImageData
  gpsData : List GPSData
  systemMetrics : List SystemMetrics
  gpsStats : GPSStats
deriving DecidableEq, BEq, Repr

/-- `loadSession` (lines 129-179): the dashboard fetch and the metadata scan are
fatal; GPS and telemetry sources degrade to fallbacks or empty data. -/
def loadSession (env : Env) : Except String SessionData :=
  match env.dashboard with
  | .netFail => .error "Failed to load enhanced session data"
  | .httpFail => .error "Dashboard API failed"
  | .bad => .error "Dashboard response unparsable"
  | .ok dashboardData =>
    let gpsData := loadCombinedGPSData env
    let systemMetrics := loadSystemMetrics env
    match loadMetadataFiles env with
    | .error e => .error e
    | .ok metadataFiles =>
      let cameras := buildEnhancedCameraInfo metadataFiles dashboardData
      let timeline := createEnhancedTimeline env gpsData metadataFiles
      let gpsStats := calculateGPSStats gpsData cameras
      .ok { sessionName := extractSessionName env.serverUrl
            sessionPath := env.serverUrl
            cameras := cameras
            timeline := timeline
            gpsData := gpsData
            systemMetrics := systemMetrics
            gpsStats := gpsStats }

/-- `findMatchingDetections` from the legacy loader: keep the rows whose parsed
timestamp lies within 5000 ms of the parsed target timestamp; rows without a
timestamp never match.  `getTime` is the external `new Date(...).getTime()`. -/
def findMatchingDetections (getTime : String → JVal) (detections : List DetectionData)
    (targetTimestamp : String) : List DetectionData :=
  detections.filter (fun detection =>
    if truthy detection.timestamp then
      jabsLe (getTime (jvalStr detection.timestamp)) (getTime targetTimestamp) 5000
    else false)

/-- Playback state of the viewer page (`currentIndex`, `isPlaying`). -/
structure PlaybackState where
  currentIndex : ℤ
  isPlaying : Bool
deriving DecidableEq, BEq, Repr

/-- `handleIndexChange` (page.tsx lines 227-231): apply the new index only when a
session is loaded and the index is strictly inside `[0, length)`; otherwise the
state is left untouched. -/
def handleIndexChange (sessionData : Option ℕ) (st : PlaybackState) (newIndex : ℤ) :
    PlaybackState :=
  match sessionData with
  | some timelineLength =>
    if 0 ≤ newIndex ∧ newIndex < (timelineLength : ℤ) then { st with currentIndex := newIndex }
    else st
  | none => st

/-- The auto-play timer period (page.tsx line 139): `1000 / playbackSpeed`. -/
def autoPlayIntervalMs (playbackSpeed : ℚ) : ℚ := 1000 / playbackSpeed

/-- One auto-play timer tick (page.tsx lines 140-148): stop and pause at the last
frame, otherwise advance by one. -/
def autoPlayTick (timelineLength : ℕ) (st : PlaybackState) : PlaybackState :=
  if st.currentIndex ≥ (timelineLength : ℤ) - 1 then { st with isPlaying := false }
  else { st with currentIndex := st.currentIndex + 1 }

/-- Lexicographic strict order on character lists, by code point: the order JS
string comparison gives to the `YYYY-MM-DD HH:MM:SS` timestamps. -/
def strLtb : List Char → List Char → Bool
  | [], [] => false
  | [], _ :: _ => true
  | _ :: _, [] => false
  | a :: as, b :: bs =>
    if a.toNat < b.toNat then true
    else if b.toNat < a.toNat then false
    else strLtb as bs

/-- Timestamp-string order used to state the ordering claims (decidable, unlike
the builtin `String` order). -/
def tsLe (a b : String) : Prop := strLtb b.data a.data = false

instance (a b : String) : Decidable (tsLe a b) := by
  unfold tsLe; infer_instance

/-- A truthy first operand wins in `a || b`. -/
theorem jor_of_truthy (a b : JVal) (h : truthy a = true) : jor a b = a := by
  simp [jor, h]

/-- A falsy first operand defers to the default in `a || b`. -/
theorem jor_of_falsy (a b : JVal) (h : truthy a = false) : jor a b = b := by
  simp [jor, h]

/-- A two-alias defaulting chain ignores the final default once either alias is
truthy. -/
theorem jor_indep3 (a b c c2 : JVal) (h : truthy a = true ∨ truthy b = true) :
    jor a (jor b c) = jor a (jor b c2) := by
  rcases h with h | h <;> simp [jor, h]

/-- A three-alias defaulting chain ignores the final default once some alias is
truthy. -/
theorem jor_indep4 (a b c d d2 : JVal)
    (h : truthy a = true ∨ truthy b = true ∨ truthy c = true) :
    jor a (jor b (jor c d)) = jor a (jor b (jor c d2)) := by
  rcases h with h | h | h <;> simp [jor, h]

/-- Indexing the first `min (length, n)` positions of a list is taking its first
`n` elements. -/
theorem range_getD_eq_take {α : Type} (l : List α) (n : ℕ) (d : α) :
    (List.range (min l.length n)).map (fun i => l.getD i d) = l.take n := by
  apply List.ext_getElem?
  intro i
  by_cases h1 : i < min l.length n
  · have hl : i < l.length := lt_of_lt_of_le h1 (min_le_left _ _)
    have hn : i < n := lt_of_lt_of_le h1 (min_le_right _ _)
    rw [List.getElem?_map, List.getElem?_range h1, List.getElem?_take_of_lt hn,
      List.getElem?_eq_getElem hl]
    simp [List.getD_eq_getElem?_getD, List.getElem?_eq_getElem hl]
  · have hL : ((List.range (min l.length n)).map fun i => l.getD i d)[i]? = none := by
      rw [List.getElem?_eq_none_iff]
      simpa using Nat.le_of_not_lt h1
    have hR : (l.take n)[i]? = none := by
      rw [List.getElem?_eq_none_iff, List.length_take]
      omega
    rw [hL, hR]

/-- The timeline length is the capped GPS fix count. -/
theorem createEnhancedTimeline_length (env : Env) (gps : List GPSData)
    (files : List MetaFile) :
    (createEnhancedTimeline env gps files).length = min gps.length 100 := by
  simp [createEnhancedTimeline]

/-- A frame field copied verbatim from the anchoring fix makes the timeline map
to the first 100 fixes mapped. -/
theorem createEnhancedTimeline_map_field {β : Type} (env : Env) (gps : List GPSData)
    (files : List MetaFile) (f : ImageData → β) (g : GPSData → β)
    (hfg : ∀ i, f (timelineEntryAt env gps files i) = g (gps.getD i unusedGPSAnchor)) :
    (createEnhancedTimeline env gps files).map f = (gps.take 100).map g := by
  unfold createEnhancedTimeline
  rw [List.map_map]
  have h1 : (f ∘ fun i => timelineEntryAt env gps files i) =
      (g ∘ fun i => gps.getD i unusedGPSAnchor) := funext fun i => hfg i
  rw [h1, ← List.map_map, range_getD_eq_take]

/-- `loadSession` under a usable dashboard and manifest: the snapshot assembled
from the independent per-source loaders. -/
theorem loadSession_eq_ok (env : Env) (dash : DashboardData) (files : List MetaFile)
    (hd : env.dashboard = .ok dash) (hs : env.scan = .ok files) :
    loadSession env = .ok
      { sessionName := extractSessionName env.serverUrl
        sessionPath := env.serverUrl
        cameras := buildEnhancedCameraInfo files dash
        timeline := createEnhancedTimeline env (loadCombinedGPSData env) files
        gpsData := loadCombinedGPSData env
        systemMetrics := loadSystemMetrics env
        gpsStats := calculateGPSStats (loadCombinedGPSData env)
          (buildEnhancedCameraInfo files dash) } := by
  simp [loadSession, hd, loadMetadataFiles, hs]

/-- A failed telemetry source degrades to the empty metric list. -/
theorem loadSystemMetrics_of_fail (env : Env) (h : env.sysMetrics.isOk = false) :
    loadSystemMetrics env = [] := by
  cases hm : env.sysMetrics <;>
    first
      | (rw [hm] at h; simp [Fetch.isOk] at h; done)
      | simp [loadSystemMetrics, hm]

/-- With every GPS endpoint unusable, the combined loader lands on the synthetic
generator. -/
theorem loadCombinedGPSData_synthetic (env : Env) (h1 : env.combined.isOk = false)
    (h2 : env.gpsLog.isOk = false) (h3 : env.gpsMeta.isOk = false) :
    loadCombinedGPSData env = generateSyntheticGPSData env.synthRand := by
  cases hc : env.combined <;> cases hl : env.gpsLog <;> cases hg : env.gpsMeta <;>
    first
      | (rw [hc] at h1; simp [Fetch.isOk] at h1; done)
      | (rw [hl] at h2; simp [Fetch.isOk] at h2; done)
      | (rw [hg] at h3; simp [Fetch.isOk] at h3; done)
      | simp [loadCombinedGPSData, loadFallbackGPSData, hc, hl, hg]

/-- With the combined and log endpoints unusable but GPS-from-metadata usable,
the combined loader returns the metadata-derived trace. -/
theorem loadCombinedGPSData_meta (env : Env) (rows : List RawGPSRow)
    (h1 : env.combined.isOk = false) (h2 : env.gpsLog.isOk = false)
    (hg : env.gpsMeta = .ok rows) :
    loadCombinedGPSData env = rows.map mapMetadataGPSRow := by
  cases hc : env.combined <;> cases hl : env.gpsLog <;>
    first
      | (rw [hc] at h1; simp [Fetch.isOk] at h1; done)
      | (rw [hl] at h2; simp [Fetch.isOk] at h2; done)
      | simp [loadCombinedGPSData, loadFallbackGPSData, hc, hl, hg]

/-- The synthetic base instant renders as the spec string. -/
theorem isoDateTime19_base : isoDateTime19 syntheticBaseMs = "2025-01-01 10:00:00" := by
  decide

/-- Each triple contributes at most three detections to a frame. -/
theorem detectionsForFile_length_le (env : Env) (i : ℕ) (file : MetaFile) :
    (detectionsForFile env i file).length ≤ 3 := by
  unfold detectionsForFile
  cases env.metaWithImages file with
  | ok payload =>
    by_cases hs : payload.success
    · by_cases hl : payload.metadata.length > 0
      · simp only [hs, hl, if_true]
        calc ((enhancedSampleDetections payload.metadata i).enum.map _).length
            = (enhancedSampleDetections payload.metadata i).length := by
              rw [List.length_map, List.enum_length]
          _ ≤ 3 := by
              unfold enhancedSampleDetections jsSlice
              calc (((payload.metadata.drop _).take _)).length
                  ≤ _ := (List.length_take _ _).le.trans (min_le_left _ _)
                _ ≤ 3 := by omega
      · simp [hs, hl]
    · simp [hs]
  | netFail => simp
  | httpFail => simp
  | bad => simp

/-- Offline environment fixture: every auxiliary endpoint unusable, Date parsing
always NaN. -/
def offlineEnv : Env :=
  { combined := .httpFail, gpsLog := .httpFail, gpsMeta := .httpFail,
    sysMetrics := .httpFail, metaWithImages := fun _ => .httpFail,
    getTime := fun _ => .nan }

/-- A GPS fix fixture carrying only a timestamp. -/
def mkTestFix (ts : String) : GPSData :=
  { timestamp := ts, time := "", date := "", latitude := .num 0, longitude := .num 0,
    altitude := none, speed := none, heading := none, source := "gps_log.csv",
    session := .missing, camera := .missing, anomalyType := .missing }

/-- A 120-fix trace with strictly increasing timestamps `t000` .. `t119`. -/
def testTrace120 : List GPSData := (List.range 120).map (fun k => mkTestFix ("t" ++ pad3 k))

/-- C4 counterexample: `setIndex(999)` on a timeline of length 10 does not clamp
to 9 — `handleIndexChange` rejects the out-of-range index and leaves
`currentIndex` at its previous value 3. -/
theorem C4_counterexample :
    handleIndexChange (some 10) ⟨3, false⟩ 999 = ⟨3, false⟩ ∧
    (handleIndexChange (some 10) ⟨3, false⟩ 999).currentIndex ≠ 9 := by
  constructor <;> decide

/-- C4 (amended): `setIndex(i)` applies `i` exactly when `0 ≤ i < L` and otherwise
leaves `currentIndex` unchanged (it never clamps); in either case the play state
is untouched and a valid index stays valid. -/
theorem C4_amended (L : ℕ) (st : PlaybackState) (i : ℤ)
    (h0 : 0 ≤ st.currentIndex) (h1 : st.currentIndex < (L : ℤ)) :
    (handleIndexChange (some L) st i).isPlaying = st.isPlaying ∧
    0 ≤ (handleIndexChange (some L) st i).currentIndex ∧
    (handleIndexChange (some L) st i).currentIndex < (L : ℤ) ∧
    (0 ≤ i → i < (L : ℤ) → (handleIndexChange (some L) st i).currentIndex = i) ∧
    (¬(0 ≤ i ∧ i < (L : ℤ)) → (handleIndexChange (some L) st i).currentIndex =
      st.currentIndex) := by
  have hspec : handleIndexChange (some L) st i =
      if 0 ≤ i ∧ i < (L : ℤ) then { st with currentIndex := i } else st := rfl
  rw [hspec]
  by_cases h : 0 ≤ i ∧ i < (L : ℤ)
  · rw [if_pos h]
    exact ⟨rfl, h.1, h.2, fun _ _ => rfl, fun hc => absurd h hc⟩
  · rw [if_neg h]
    exact ⟨rfl, h0, h1, fun ha hb => absurd ⟨ha, hb⟩ h, fun _ => rfl⟩

/-- C4 witness: the amended statement applied at length 10, state (3, paused),
requested index 999. -/
theorem C4_amended_witness :
    (handleIndexChange (some 10) ⟨3, false⟩ 999).isPlaying = false ∧
    (handleIndexChange (some 10) ⟨3, false⟩ 999).currentIndex < (10 : ℤ) ∧
    (handleIndexChange (some 10) ⟨3, false⟩ 999).currentIndex = 3 :=
  ⟨(C4_amended 10 ⟨3, false⟩ 999 (by decide) (by decide)).1,
   (C4_amended 10 ⟨3, false⟩ 999 (by decide) (by decide)).2.2.1,
   (C4_amended 10 ⟨3, false⟩ 999 (by decide) (by decide)).2.2.2.2 (by decide)⟩

/-- C5 counterexample: at speed multiplier 40 the auto-play period is 25 ms,
strictly below the spec floor of 50 ms, so the period is not
`max(minimumPeriod, basePeriod / speed)`. -/
theorem C5_counterexample :
    autoPlayIntervalMs 40 = 25 ∧
    autoPlayIntervalMs 40 ≠ max 50 (1000 / 40) ∧
    autoPlayIntervalMs 40 < 50 := by
  refine ⟨by norm_num [autoPlayIntervalMs], ?_, by norm_num [autoPlayIntervalMs]⟩
  norm_num [autoPlayIntervalMs]

/-- C5 (amended): the effective tick period is exactly `1000 / speed` with no
minimum floor; it agrees with `max(50, 1000 / speed)` only for speeds up to 20
(hence speed 4 gives 250 ms), and drops below 50 ms beyond speed 20. -/
theorem C5_amended (s : ℚ) (hs : 0 < s) :
    autoPlayIntervalMs s = 1000 / s ∧
    (s ≤ 20 → autoPlayIntervalMs s = max 50 (1000 / s)) ∧
    (20 < s → autoPlayIntervalMs s < 50) := by
  refine ⟨rfl, fun h => ?_, fun h => ?_⟩
  · have h50 : (50 : ℚ) ≤ 1000 / s := by
      rw [le_div_iff₀ hs]
      nlinarith
    rw [autoPlayIntervalMs, max_eq_right h50]
  · rw [autoPlayIntervalMs, div_lt_iff₀ hs]
    nlinarith

/-- C5 witness: the amended statement applied at speed 4 yields the 250 ms period
of spec scenario S4. -/
theorem C5_amended_witness :
    autoPlayIntervalMs 4 = max 50 (1000 / 4) ∧ autoPlayIntervalMs 4 = 250 := by
  refine ⟨(C5_amended 4 (by norm_num)).2.1 (by norm_num), ?_⟩
  norm_num [autoPlayIntervalMs]

/-- C1 counterexample: a 120-fix trace is capped to 100 frames that are exactly
the first 100 fixes; the final stride of fixes (`t118`, `t119`) is absent, so the
retained frames are a plain Prefix, not an evenly-strided subsample spanning the
full time range. -/
theorem C1_counterexample :
    (createEnhancedTimeline offlineEnv testTrace120 []).length = 100 ∧
    (createEnhancedTimeline offlineEnv testTrace120 []).map ImageData.timestamp =
      (List.range 100).map (fun k => "t" ++ pad3 k) ∧
    ((createEnhancedTimeline offlineEnv testTrace120 []).map ImageData.timestamp).contains
      "t118" = false ∧
    ((createEnhancedTimeline offlineEnv testTrace120 []).map ImageData.timestamp).contains
      "t119" = false := by
  have hmap := createEnhancedTimeline_map_field offlineEnv testTrace120 []
    ImageData.timestamp GPSData.timestamp (fun i => rfl)
  refine ⟨?_, ?_, ?_, ?_⟩
  · rw [createEnhancedTimeline_length]
    simp [testTrace120]
  · rw [hmap]; decide
  · rw [hmap]; decide
  · rw [hmap]; decide

/-- C1 (amended): when a GPS trace exceeds the cap of 100, the synthesized
timeline has exactly 100 frames and they anchor the first 100 fixes in source
order — a prefix of the trace, truncating its tail. -/
theorem C1_amended (env : Env) (gpsData : List GPSData) (files : List MetaFile)
    (h : 100 < gpsData.length) :
    (createEnhancedTimeline env gpsData files).length = 100 ∧
    (createEnhancedTimeline env gpsData files).map ImageData.timestamp =
      (gpsData.take 100).map GPSData.timestamp := by
  constructor
  · rw [createEnhancedTimeline_length]
    omega
  · exact createEnhancedTimeline_map_field env gpsData files
      ImageData.timestamp GPSData.timestamp (fun i => rfl)

/-- C1 witness: the amended statement applied to the concrete 120-fix trace. -/
theorem C1_amended_witness :
    (createEnhancedTimeline offlineEnv testTrace120 []).length = 100 ∧
    (createEnhancedTimeline offlineEnv testTrace120 []).map ImageData.timestamp =
      (testTrace120.take 100).map GPSData.timestamp :=
  C1_amended offlineEnv testTrace120 [] (by simp [testTrace120])

/-- A two-fix trace arriving in descending timestamp order. -/
def unsortedTrace : List GPSData :=
  [mkTestFix "2025-01-01 10:00:30", mkTestFix "2025-01-01 10:00:00"]

/-- C2 counterexample: the loader applies no sort, so a trace arriving out of
order produces a timeline whose adjacent timestamps violate
`timeline[i].timestamp <= timeline[i+1].timestamp`. -/
theorem C2_counterexample :
    (createEnhancedTimeline offlineEnv unsortedTrace []).map ImageData.timestamp =
      ["2025-01-01 10:00:30", "2025-01-01 10:00:00"] ∧
    ¬ ((createEnhancedTimeline offlineEnv unsortedTrace []).map
        ImageData.timestamp).Pairwise tsLe := by
  have hmap := createEnhancedTimeline_map_field offlineEnv unsortedTrace []
    ImageData.timestamp GPSData.timestamp (fun i => rfl)
  constructor
  · rw [hmap]; decide
  · rw [hmap]; decide

/-- C2 (amended): no sorting is applied — the timeline's timestamp sequence is
exactly that of the first `min(N, 100)` GPS fixes in arrival order (ties kept in
GPS order); in particular, a trace arriving sorted ascending yields a sorted
timeline. -/
theorem C2_amended (env : Env) (gpsData : List GPSData) (files : List MetaFile) :
    (createEnhancedTimeline env gpsData files).map ImageData.timestamp =
      (gpsData.take 100).map GPSData.timestamp ∧
    ((gpsData.map GPSData.timestamp).Pairwise tsLe →
      ((createEnhancedTimeline env gpsData files).map
        ImageData.timestamp).Pairwise tsLe) := by
  have hmap := createEnhancedTimeline_map_field env gpsData files
    ImageData.timestamp GPSData.timestamp (fun i => rfl)
  refine ⟨hmap, fun h => ?_⟩
  rw [hmap]
  exact h.sublist ((List.take_sublist 100 gpsData).map GPSData.timestamp)

/-- A three-fix trace arriving already sorted (spec scenario S1 timestamps). -/
def sortedTrace : List GPSData :=
  [mkTestFix "2025-01-01 10:00:00", mkTestFix "2025-01-01 10:00:30",
   mkTestFix "2025-01-01 10:01:00"]

/-- C2 witness: the amended statement applied to a concrete sorted trace. -/
theorem C2_amended_witness :
    (createEnhancedTimeline offlineEnv sortedTrace []).map ImageData.timestamp =
      (sortedTrace.take 100).map GPSData.timestamp ∧
    ((createEnhancedTimeline offlineEnv sortedTrace []).map
      ImageData.timestamp).Pairwise tsLe :=
  ⟨(C2_amended offlineEnv sortedTrace []).1,
   (C2_amended offlineEnv sortedTrace []).2 (by decide)⟩

/-- A raw GPS row whose latitude is an unparsable string and whose longitude
parses far outside the valid degree range. -/
def rowBadCoords : RawGPSRow :=
  { latitude := .str "abc", longitude := .str "200" }

/-- C7 counterexample: a malformed latitude normalizes to NaN (not 0, not a
defined number), an out-of-range longitude passes through unclamped, and both
reach the produced timeline frame unchanged. -/
theorem C7_counterexample :
    (mapCombinedGPSRow rowBadCoords).latitude = JVal.nan ∧
    JVal.nan ≠ JVal.num 0 ∧
    (mapCombinedGPSRow rowBadCoords).longitude = JVal.num 200 ∧
    ¬ ((200 : ℚ) ≤ 180) ∧
    (createEnhancedTimeline offlineEnv [mapCombinedGPSRow rowBadCoords] []).map
      ImageData.latitude = [JVal.nan] ∧
    (createEnhancedTimeline offlineEnv [mapCombinedGPSRow rowBadCoords] []).map
      ImageData.longitude = [JVal.num 200] := by
  refine ⟨by decide, by decide, by decide, by norm_num, ?_, ?_⟩ <;> decide

/-- C7 (amended): a falsy (missing or empty) latitude/longitude field normalizes
to 0, and every frame copies its anchoring fix's coordinates verbatim — but an
unparsable non-empty string yields NaN and no range check is applied, so the
`[-90,90]` / `[-180,180]` bounds are not enforced. -/
theorem C7_amended :
    (∀ row : RawGPSRow, truthy row.latitude = false →
      (mapCombinedGPSRow row).latitude = JVal.num 0) ∧
    (∀ row : RawGPSRow, truthy row.longitude = false →
      (mapCombinedGPSRow row).longitude = JVal.num 0) ∧
    (∀ (env : Env) (gpsData : List GPSData) (files : List MetaFile),
      (createEnhancedTimeline env gpsData files).map ImageData.latitude =
        (gpsData.take 100).map GPSData.latitude ∧
      (createEnhancedTimeline env gpsData files).map ImageData.longitude =
        (gpsData.take 100).map GPSData.longitude) := by
  refine ⟨fun row h => ?_, fun row h => ?_, fun env gpsData files => ⟨?_, ?_⟩⟩
  · simp [mapCombinedGPSRow, jor_of_falsy _ _ h, parseFloatJ]
  · simp [mapCombinedGPSRow, jor_of_falsy _ _ h, parseFloatJ]
  · exact createEnhancedTimeline_map_field env gpsData files
      ImageData.latitude GPSData.latitude (fun i => rfl)
  · exact createEnhancedTimeline_map_field env gpsData files
      ImageData.longitude GPSData.longitude (fun i => rfl)

/-- C7 witness: the amended statement applied to the all-missing raw row and to a
concrete one-fix timeline. -/
theorem C7_amended_witness :
    (mapCombinedGPSRow {}).latitude = JVal.num 0 ∧
    (mapCombinedGPSRow {}).longitude = JVal.num 0 ∧
    (createEnhancedTimeline offlineEnv sortedTrace []).map ImageData.latitude =
      (sortedTrace.take 100).map GPSData.latitude :=
  ⟨C7_amended.1 {} rfl, C7_amended.2.1 {} rfl,
   (C7_amended.2.2 offlineEnv sortedTrace []).1⟩

/-- A manifest triple fixture. -/
def detFileF2 : MetaFile := { session := "F2", camera := "4kcam", anomalyType := "pothole" }

/-- Draws representing a second `Math.random()` stream returning 1 at each site. -/
def oneDraw : DetDraw := { rConf := 1, rLeft := 1, rTop := 1, rWidth := 1, rHeight := 1 }

/-- C6 counterexample: normalizing the same wholly-missing detection row under
two different `Math.random()` streams yields different records (the confidence
default is `Math.random() * 0.3 + 0.7`), so the defaulted record is not a
deterministic function of the row alone. -/
theorem C6_counterexample :
    mapEnhancedDetectionRow detFileF2 [] 0 0 {} {} ≠
      mapEnhancedDetectionRow detFileF2 [] 0 0 oneDraw {} := by
  intro h
  have hc := congrArg DetectionData.confidence h
  simp [mapEnhancedDetectionRow, jor, truthy, parseFloatJ, oneDraw] at hc

/-- C6 (amended): detection-row normalization is deterministic (independent of
the random stream) exactly when every randomized defaulting chain
(confidence/score, left/x/bbox_left, top/y/bbox_top, width/w/bbox_width,
height/h/bbox_height) has a truthy alias; the telemetry normalizer by contrast
uses fixed enumerated defaults (memory_total_mb 8192, swap_total_mb 2048). -/
theorem C6_amended :
    (∀ (file : MetaFile) (gpsRows : List RawMetaGPSRow) (i index : ℕ)
        (row : RawDetRow) (d1 d2 : DetDraw),
      (truthy row.confidence = true ∨ truthy row.score = true) →
      (truthy row.left = true ∨ truthy row.x = true ∨ truthy row.bbox_left = true) →
      (truthy row.top = true ∨ truthy row.y = true ∨ truthy row.bbox_top = true) →
      (truthy row.width = true ∨ truthy row.w = true ∨ truthy row.bbox_width = true) →
      (truthy row.height = true ∨ truthy row.h = true ∨ truthy row.bbox_height = true) →
      mapEnhancedDetectionRow file gpsRows i index d1 row =
        mapEnhancedDetectionRow file gpsRows i index d2 row) ∧
    (∀ mrow : RawMetricsRow, truthy mrow.memory_total_mb = false →
      (mapSystemMetricsRow mrow).memory_total_mb = JVal.num 8192) ∧
    (∀ mrow : RawMetricsRow, truthy mrow.swap_total_mb = false →
      (mapSystemMetricsRow mrow).swap_total_mb = JVal.num 2048) := by
  refine ⟨?_, ?_, ?_⟩
  · intro file gpsRows i index row d1 d2 hconf hleft htop hwidth hheight
    have hc : jor row.confidence (jor row.score (JVal.num (d1.rConf * (3 / 10) + 7 / 10))) =
        jor row.confidence (jor row.score (JVal.num (d2.rConf * (3 / 10) + 7 / 10))) :=
      jor_indep3 _ _ _ _ hconf
    have hl : jor row.left (jor row.x (jor row.bbox_left (JVal.num (d1.rLeft * 500)))) =
        jor row.left (jor row.x (jor row.bbox_left (JVal.num (d2.rLeft * 500)))) :=
      jor_indep4 _ _ _ _ _ hleft
    have ht : jor row.top (jor row.y (jor row.bbox_top (JVal.num (d1.rTop * 500)))) =
        jor row.top (jor row.y (jor row.bbox_top (JVal.num (d2.rTop * 500)))) :=
      jor_indep4 _ _ _ _ _ htop
    have hw : jor row.width (jor row.w (jor row.bbox_width
          (JVal.num (100 + d1.rWidth * 200)))) =
        jor row.width (jor row.w (jor row.bbox_width (JVal.num (100 + d2.rWidth * 200)))) :=
      jor_indep4 _ _ _ _ _ hwidth
    have hh : jor row.height (jor row.h (jor row.bbox_height
          (JVal.num (100 + d1.rHeight * 200)))) =
        jor row.height (jor row.h (jor row.bbox_height
          (JVal.num (100 + d2.rHeight * 200)))) :=
      jor_indep4 _ _ _ _ _ hheight
    simp only [mapEnhancedDetectionRow, hc, hl, ht, hw, hh]
  · intro mrow h
    simp [mapSystemMetricsRow, jor_of_falsy _ _ h, parseFloatJ]
  · intro mrow h
    simp [mapSystemMetricsRow, jor_of_falsy _ _ h, parseFloatJ]

/-- A detection row with every randomized defaulting chain satisfied. -/
def fullDetRow : RawDetRow :=
  { confidence := .str "0.9", left := .str "10", top := .str "20",
    width := .str "30", height := .str "40" }

/-- C6 witness: the amended statement applied to a fully-populated row under two
different random streams, and to the all-missing telemetry row. -/
theorem C6_amended_witness :
    mapEnhancedDetectionRow detFileF2 [] 0 0 {} fullDetRow =
      mapEnhancedDetectionRow detFileF2 [] 0 0 oneDraw fullDetRow ∧
    (mapSystemMetricsRow {}).memory_total_mb = JVal.num 8192 :=
  ⟨C6_amended.1 detFileF2 [] 0 0 fullDetRow {} oneDraw (Or.inl (by decide))
      (Or.inl (by decide)) (Or.inl (by decide)) (Or.inl (by decide)) (Or.inl (by decide)),
   C6_amended.2.1 {} rfl⟩

/-- The manifest triple used by the C8 fixture. -/
def c8File : MetaFile := { session := "F2", camera := "cam1", anomalyType := "crack" }

/-- A detection row timed at the frame instant. -/
def c8RowNear : RawDetRow := { timestamp := .str "2025-01-01 10:00:00" }

/-- A detection row timed 100 seconds after the frame instant. -/
def c8RowFar : RawDetRow := { timestamp := .str "2025-01-01 10:01:40" }

/-- Concrete Date parser for the two fixture timestamps. -/
def c8GetTime : String → JVal := fun s =>
  if s = "2025-01-01 10:00:00" then .num 0
  else if s = "2025-01-01 10:01:40" then .num 100000
  else .nan

/-- The C8 environment: one triple whose metadata rows all carry timestamps. -/
def c8Env : Env :=
  { combined := .httpFail, gpsLog := .httpFail, gpsMeta := .httpFail,
    sysMetrics := .httpFail,
    metaWithImages := fun f =>
      if f = c8File then
        .ok { success := true, images := [], metadata := [c8RowNear, c8RowFar], gps := [] }
      else .httpFail,
    getTime := c8GetTime }

/-- A one-fix GPS trace anchored at the near instant. -/
def c8Trace : List GPSData := [mkTestFix "2025-01-01 10:00:00"]

/-- C8 counterexample: although every detection row carries a timestamp, the
enhanced timeline attaches the round-robin slice — including a row 100 s away
from the frame, outside both the 5 s and the 60 s tolerance — so
nearest-timestamp matching is not used even when timestamps are available. -/
theorem C8_counterexample :
    (createEnhancedTimeline c8Env c8Trace [c8File]).map
        (fun f => f.detections.map DetectionData.timestamp) =
      [[JVal.str "2025-01-01 10:00:00", JVal.str "2025-01-01 10:01:40"]] ∧
    jabsLe (c8GetTime "2025-01-01 10:01:40") (c8GetTime "2025-01-01 10:00:00") 5000 =
      false ∧
    jabsLe (c8GetTime "2025-01-01 10:01:40") (c8GetTime "2025-01-01 10:00:00") 60000 =
      false := by
  have h1 : c8GetTime "2025-01-01 10:01:40" = JVal.num 100000 := by decide
  have h2 : c8GetTime "2025-01-01 10:00:00" = JVal.num 0 := by decide
  refine ⟨by decide, ?_, ?_⟩ <;>
    · rw [h1, h2]
      simp only [jabsLe]
      rw [decide_eq_false_iff_not]
      norm_num

/-- C8 (amended): the two strategies live in different loader generations and no
preference logic exists.  The legacy `findMatchingDetections` keeps exactly the
rows with a truthy timestamp within 5000 ms of the target; the enhanced timeline
instead attaches, per manifest triple, an index-modulo slice of at most three
rows to each frame, irrespective of timestamps. -/
theorem C8_amended :
    (∀ (getTime : String → JVal) (detections : List DetectionData)
        (targetTimestamp : String) (det : DetectionData),
      det ∈ findMatchingDetections getTime detections targetTimestamp ↔
        det ∈ detections ∧ truthy det.timestamp = true ∧
          jabsLe (getTime (jvalStr det.timestamp)) (getTime targetTimestamp) 5000 = true) ∧
    (∀ (env : Env) (gpsData : List GPSData) (files : List MetaFile) (i : ℕ),
      (timelineEntryAt env gpsData files i).detections.length ≤ 3 * files.length) := by
  constructor
  · intro getTime dets ts det
    unfold findMatchingDetections
    rw [List.mem_filter]
    by_cases h : truthy det.timestamp <;> simp [h]
  · intro env gps files i
    show ((files.map (fun f => detectionsForFile env i f)).flatten).length ≤ 3 * files.length
    rw [List.length_flatten, List.map_map]
    have hb : ∀ x ∈ files.map (fun f => (detectionsForFile env i f).length), x ≤ 3 := by
      intro x hx
      obtain ⟨f, hf, rfl⟩ := List.mem_map.mp hx
      exact detectionsForFile_length_le env i f
    have hsum := List.sum_le_card_nsmul _ 3 hb
    simpa [List.length_map, smul_eq_mul, mul_comm, Function.comp] using hsum

/-- C3 (confirmed): a failed metadata scan fails the whole session load, while
GPS and telemetry failures never do — the load still returns a snapshot whose
telemetry degrades to empty and whose GPS trace degrades to the synthetic
fallback. -/
theorem C3_confirmed (env : Env) :
    (env.scan.isOk = false → ∃ e, loadSession env = .error e) ∧
    (∀ (dash : DashboardData) (files : List MetaFile),
      env.dashboard = .ok dash → env.scan = .ok files →
      ∃ s, loadSession env = .ok s ∧
        (env.sysMetrics.isOk = false → s.systemMetrics = []) ∧
        (env.combined.isOk = false → env.gpsLog.isOk = false →
          env.gpsMeta.isOk = false →
          s.gpsData = generateSyntheticGPSData env.synthRand)) := by
  constructor
  · intro h
    cases hd : env.dashboard with
    | netFail => exact ⟨"Failed to load enhanced session data", by simp [loadSession, hd]⟩
    | httpFail => exact ⟨"Dashboard API failed", by simp [loadSession, hd]⟩
    | bad => exact ⟨"Dashboard response unparsable", by simp [loadSession, hd]⟩
    | ok dash =>
      cases hs : env.scan with
      | ok files => rw [hs] at h; simp [Fetch.isOk] at h
      | netFail =>
        exact ⟨"Error scanning metadata files",
          by simp [loadSession, hd, loadMetadataFiles, hs]⟩
      | httpFail =>
        exact ⟨"Metadata scan failed", by simp [loadSession, hd, loadMetadataFiles, hs]⟩
      | bad =>
        exact ⟨"Metadata scan response invalid",
          by simp [loadSession, hd, loadMetadataFiles, hs]⟩
  · intro dash files hd hs
    refine ⟨_, loadSession_eq_ok env dash files hd hs, fun hm => ?_, fun h1 h2 h3 => ?_⟩
    · exact loadSystemMetrics_of_fail env hm
    · exact loadCombinedGPSData_synthetic env h1 h2 h3

/-- An environment whose manifest scan returns HTTP failure. -/
def c3EnvScanFail : Env := { scan := .httpFail }

/-- An environment with usable dashboard and manifest but every GPS and
telemetry source failed. -/
def c3EnvDegraded : Env :=
  { combined := .httpFail, gpsLog := .netFail, gpsMeta := .bad, sysMetrics := .netFail }

/-- C3 witness: the statement applied to a failed-scan environment and to a
degraded-sources environment. -/
theorem C3_confirmed_witness :
    (∃ e, loadSession c3EnvScanFail = .error e) ∧
    (∃ s, loadSession c3EnvDegraded = .ok s ∧
      (c3EnvDegraded.sysMetrics.isOk = false → s.systemMetrics = []) ∧
      (c3EnvDegraded.combined.isOk = false → c3EnvDegraded.gpsLog.isOk = false →
        c3EnvDegraded.gpsMeta.isOk = false →
        s.gpsData = generateSyntheticGPSData c3EnvDegraded.synthRand)) :=
  ⟨(C3_confirmed c3EnvScanFail).1 rfl,
   (C3_confirmed c3EnvDegraded).2 {} [] rfl rfl⟩

/-- C9 (confirmed): with the combined and track-log endpoints unusable, the
loader first derives the trace from GPS-from-metadata (every point tagged
`metadata.csv`); if that also fails it returns the 50-point synthetic trace,
every point tagged `synthetic` and never tagged as a real GPS source — so the
trace is never empty merely because GPS sources are missing. -/
theorem C9_confirmed (env : Env) (h1 : env.combined.isOk = false)
    (h2 : env.gpsLog.isOk = false) :
    (∀ rows : List RawGPSRow, env.gpsMeta = .ok rows →
      loadCombinedGPSData env = rows.map mapMetadataGPSRow ∧
      ∀ p ∈ loadCombinedGPSData env, p.source = "metadata.csv") ∧
    (env.gpsMeta.isOk = false →
      loadCombinedGPSData env = generateSyntheticGPSData env.synthRand ∧
      (loadCombinedGPSData env).length = 50 ∧
      ∀ p ∈ loadCombinedGPSData env, p.source = "synthetic" ∧
        p.source ≠ "gps_log.csv" ∧ p.source ≠ "metadata.csv") := by
  constructor
  · intro rows hg
    have he := loadCombinedGPSData_meta env rows h1 h2 hg
    refine ⟨he, ?_⟩
    rw [he]
    intro p hp
    obtain ⟨r, hr, rfl⟩ := List.mem_map.mp hp
    rfl
  · intro h3
    have he := loadCombinedGPSData_synthetic env h1 h2 h3
    refine ⟨he, ?_, ?_⟩
    · rw [he]
      unfold generateSyntheticGPSData
      simp
    · intro p hp
      rw [he] at hp
      unfold generateSyntheticGPSData at hp
      obtain ⟨i, hi, rfl⟩ := List.mem_map.mp hp
      refine ⟨rfl, ?_, ?_⟩
      · show ("synthetic" : String) ≠ "gps_log.csv"
        decide
      · show ("synthetic" : String) ≠ "metadata.csv"
        decide

/-- A GPS-from-metadata row fixture. -/
def c9Row : RawGPSRow :=
  { latitude := .num 1, longitude := .num 2, timestamp := .str "2025-01-01 10:00:00" }

/-- Combined and log endpoints unusable, metadata endpoint usable. -/
def c9EnvMeta : Env := { combined := .bad, gpsLog := .httpFail, gpsMeta := .ok [c9Row] }

/-- Every GPS endpoint unusable. -/
def c9EnvSynth : Env := { combined := .netFail, gpsLog := .bad, gpsMeta := .netFail }

/-- C9 witness: the statement applied to the metadata-fallback environment and
to the all-failed environment. -/
theorem C9_confirmed_witness :
    (loadCombinedGPSData c9EnvMeta = [c9Row].map mapMetadataGPSRow ∧
      ∀ p ∈ loadCombinedGPSData c9EnvMeta, p.source = "metadata.csv") ∧
    (loadCombinedGPSData c9EnvSynth = generateSyntheticGPSData c9EnvSynth.synthRand ∧
      (loadCombinedGPSData c9EnvSynth).length = 50 ∧
      ∀ p ∈ loadCombinedGPSData c9EnvSynth, p.source = "synthetic" ∧
        p.source ≠ "gps_log.csv" ∧ p.source ≠ "metadata.csv") :=
  ⟨(C9_confirmed c9EnvMeta rfl rfl).1 [c9Row] rfl,
   (C9_confirmed c9EnvSynth rfl rfl).2 rfl⟩

/-- C10 (confirmed): the synthetic fallback always yields exactly 50 points whose
timestamps start at 2025-01-01 10:00:00 UTC and advance in exact 30-second
steps, independent of the random draws; hence when every GPS source fails but
the manifest succeeds, the timeline has exactly 50 frames, below the 100 cap. -/
theorem C10_confirmed (env : Env) :
    (∀ r : ℕ → SynthDraw,
      (generateSyntheticGPSData r).length = 50 ∧
      (∀ i, i < 50 → ((generateSyntheticGPSData r)[i]?).map GPSData.timestamp =
        some (isoDateTime19 (syntheticBaseMs + i * 30000))) ∧
      ((generateSyntheticGPSData r)[0]?).map GPSData.timestamp =
        some "2025-01-01 10:00:00") ∧
    (∀ (dash : DashboardData) (files : List MetaFile),
      env.dashboard = .ok dash → env.scan = .ok files →
      env.combined.isOk = false → env.gpsLog.isOk = false → env.gpsMeta.isOk = false →
      ∃ s, loadSession env = .ok s ∧ s.timeline.length = 50 ∧ s.timeline.length < 100) := by
  constructor
  · intro r
    have hget : ∀ i, i < 50 →
        ((generateSyntheticGPSData r)[i]?).map GPSData.timestamp =
          some (isoDateTime19 (syntheticBaseMs + i * 30000)) := by
      intro i hi
      unfold generateSyntheticGPSData
      rw [List.getElem?_map, List.getElem?_range hi]
      rfl
    refine ⟨by unfold generateSyntheticGPSData; simp, hget, ?_⟩
    have h0 := hget 0 (by norm_num)
    rw [h0]
    simp [isoDateTime19_base]
  · intro dash files hd hs h1 h2 h3
    refine ⟨_, loadSession_eq_ok env dash files hd hs, ?_, ?_⟩
    · show (createEnhancedTimeline env (loadCombinedGPSData env) files).length = 50
      rw [createEnhancedTimeline_length, loadCombinedGPSData_synthetic env h1 h2 h3]
      unfold generateSyntheticGPSData
      simp
    · show (createEnhancedTimeline env (loadCombinedGPSData env) files).length < 100
      rw [createEnhancedTimeline_length, loadCombinedGPSData_synthetic env h1 h2 h3]
      unfold generateSyntheticGPSData
      simp

/-- Every GPS endpoint down, dashboard and manifest up. -/
def c10Env : Env := { combined := .netFail, gpsLog := .netFail, gpsMeta := .netFail }

/-- C10 witness: the statement applied to the trivial draw stream and the
all-GPS-failed environment. -/
theorem C10_confirmed_witness :
    (generateSyntheticGPSData (fun _ => {})).length = 50 ∧
    ((generateSyntheticGPSData (fun _ => {}))[0]?).map GPSData.timestamp =
      some "2025-01-01 10:00:00" ∧
    (∃ s, loadSession c10Env = .ok s ∧ s.timeline.length = 50 ∧
      s.timeline.length < 100) :=
  ⟨((C10_confirmed c10Env).1 (fun _ => {})).1,
   ((C10_confirmed c10Env).1 (fun _ => {})).2.2,
   (C10_confirmed c10Env).2 {} [] rfl rfl rfl rfl rfl⟩

end NissanHUD
